import Mathlib

/-!
Shallow embedding of the core simulation loop of the Stickman-Umbrella-Glide
repository (src/components/GameCanvas.tsx and src/services/challengeLevels.ts),
together with proofs settling the frozen claims about its specification.

Numbers are modelled by `ℚ` (every literal in the source is exactly
representable), JavaScript `Math.floor` by `Int.floor`, and the mutable
per-tick loop by pure state-passing functions.  Purely visual state
(particles, background elements, banking angle, spin/dance/bounce/shake
timers) is omitted: in the source it is written but never read back by the
physics, collision, scoring or objective-tracking code that the claims are
about.  Random spawning of new entities is likewise outside the claims; the
entity lists are inputs of each tick.
-/

namespace StickmanGlide

/-- Difficulty modes selectable by the player (GameCanvas.tsx 309–312). -/
inductive DifficultyMode
  | EASY
  | MEDIUM
  | HARD
deriving DecidableEq

/-- Mode multiplier: EASY 0.35, MEDIUM 1.0, HARD 1.5 (GameCanvas.tsx 309–312). -/
def modeMultiplier : DifficultyMode → ℚ
  | .EASY => 35/100
  | .MEDIUM => 1
  | .HARD => 3/2

/-- Difficulty signal: `Math.min(Math.max(0, currentScore - 200) / 5000, 1)`
(GameCanvas.tsx 306). -/
def difficulty (currentScore : ℚ) : ℚ :=
  min (max 0 (currentScore - 200) / 5000) 1

/-- Difficulty as the spec words it: `clamp((depthScore − 200) / 5000, 0, 1)`,
the ramp value clamped below by 0 and above by 1 (spec §4.5).  Stated
separately from `difficulty` so the two can be compared. -/
def specClampDifficulty (depthScore : ℚ) : ℚ :=
  min (max ((depthScore - 200) / 5000) 0) 1

/-- World speed multiplier: `1.0 + difficulty * (2.0 - 1.0) * modeMultiplier`,
halved while SLOW_MOTION is active (GameCanvas.tsx 332–337). -/
def worldSpeedMultiplier (d : ℚ) (mode : DifficultyMode) (hasSlowMotion : Bool) : ℚ :=
  (1 + d * (2 - 1) * modeMultiplier mode) * (if hasSlowMotion then 1/2 else 1)

/-- Score multiplier: `1.0 + difficulty * 1.5`, tripled in STORM mode
(GameCanvas.tsx 343–348). -/
def scoreMultiplier (d : ℚ) (isStormMode : Bool) : ℚ :=
  (1 + d * (3/2)) * (if isStormMode then 3 else 1)

/-- Gravity multiplier: `1.0 + difficulty * 0.8 * modeMultiplier` (GameCanvas.tsx 340). -/
def gravityMultiplierOf (d : ℚ) (mode : DifficultyMode) : ℚ :=
  1 + d * (8/10) * modeMultiplier mode

/-- Raw score after one tick, given the post-physics vertical velocity:
`distanceTraveled = player.vy * worldSpeedMultiplier` and
`scoreRef.current += Math.floor(distanceTraveled * scoreMultiplier)`
(GameCanvas.tsx 605–611, with the multipliers of 303–348). -/
def scoreAfterTick (score : ℤ) (vy : ℚ) (mode : DifficultyMode)
    (storm slowmo : Bool) : ℤ :=
  score + ⌊vy * worldSpeedMultiplier (difficulty (score : ℚ)) mode slowmo
            * scoreMultiplier (difficulty (score : ℚ)) storm⌋

/-- Axis-aligned rectangle used by the collision checks. -/
structure Rect where
  x : ℚ
  y : ℚ
  width : ℚ
  height : ℚ
deriving DecidableEq

/-- Collision test of the source, literally
`a.x < b.x + b.width && a.x + a.width > b.x && a.y < b.y + b.height && a.height + a.y > b.y`
(GameCanvas.tsx 846–851, with `a` the player hitbox and `b` the obstacle). -/
def rectsOverlapHit (a b : Rect) : Bool :=
  decide (a.x < b.x + b.width) && decide (a.x + a.width > b.x) &&
  decide (a.y < b.y + b.height) && decide (a.height + a.y > b.y)

/-- Strict AABB overlap as the spec words it: the interiors of the two
rectangles intersect, i.e. on each axis the larger left edge lies strictly
below the smaller right edge (zero-area edge contact excluded). -/
def specStrictOverlap (a b : Rect) : Prop :=
  max a.x b.x < min (a.x + a.width) (b.x + b.width) ∧
  max a.y b.y < min (a.y + a.height) (b.y + b.height)

/-- Player state, restricted to the fields read by physics, collision and
scoring.  Banking angle and the spin/dance/bounce/broken animation fields are
omitted: the source writes them but never reads them back into the motion,
collision or scoring computations. -/
structure Player where
  x : ℚ
  y : ℚ
  vx : ℚ
  vy : ℚ
  targetX : ℚ
  isUmbrellaOpen : Bool
deriving DecidableEq

/-- Global wind gust state (GameCanvas.tsx 431–468).  The stochastic
activation and the 60–120-tick countdown are bookkeeping outside the claims;
the physics below reads only the flag and the force components. -/
structure WindGust where
  active : Bool
  vx : ℚ
  vy : ℚ
deriving DecidableEq

/-- Local wind zone: axis-aligned rectangle plus force vector (spec §3). -/
structure WindZone where
  x : ℚ
  y : ℚ
  width : ℚ
  height : ℚ
  vx : ℚ
  vy : ℚ
deriving DecidableEq

/-- Lateral speed clamp: `if (moveSpeed > 20) moveSpeed = 20;
if (moveSpeed < -20) moveSpeed = -20` (GameCanvas.tsx 479–481). -/
def clampLateral (v : ℚ) : ℚ :=
  let v1 := if v > 20 then 20 else v
  if v1 < -20 then -20 else v1

/-- Horizontal movement and gust application (GameCanvas.tsx 470–490):
`moveSpeed = (targetX - x) * responsiveness` clamped, gust forces applied
unless a WIND_BREAKER is active, then `player.vx = moveSpeed + gustVx`. -/
def horizontalStep (p : Player) (gust : WindGust) (hasWindBreaker : Bool) : Player :=
  let moveSpeed :=
    clampLateral ((p.targetX - p.x) * (if p.isUmbrellaOpen then 5/100 else 12/100))
  if gust.active && !hasWindBreaker then
    { p with vx := moveSpeed + gust.vx, vy := p.vy + gust.vy }
  else
    { p with vx := moveSpeed }

/-- Terminal velocity for the current umbrella state, scaled by the gravity
multiplier (GameCanvas.tsx 494 and 498, constants from 25–26). -/
def currentTerminalOf (p : Player) (gravityMultiplier : ℚ) : ℚ :=
  (if p.isUmbrellaOpen then (3 : ℚ) else 15) * gravityMultiplier

/-- Gravity selection and lift (GameCanvas.tsx 492–509): glide/dive gravity
scaled by the gravity multiplier; when gliding, horizontal speed reduces the
effective gravity and, above speed 5, subtracts a 0.05 upward impulse from
`vy`.  Returns the updated player and the effective gravity of the tick. -/
def gravityAndLift (p : Player) (gravityMultiplier : ℚ) : Player × ℚ :=
  let g0 := (if p.isUmbrellaOpen then (15/100 : ℚ) else 1/2) * gravityMultiplier
  if p.isUmbrellaOpen then
    (if |p.vx| > 5 then { p with vy := p.vy - 5/100 } else p,
     g0 - (|p.vx| * (1/10)) * (5/100))
  else (p, g0)

/-- Player-inside-zone test of the source:
`player.x > zone.x && player.x < zone.x + zone.width && player.y > zone.y &&
player.y < zone.y + zone.height` (GameCanvas.tsx 516–521). -/
def zoneContains (z : WindZone) (x y : ℚ) : Prop :=
  z.x < x ∧ x < z.x + z.width ∧ z.y < y ∧ y < z.y + z.height

instance (z : WindZone) (x y : ℚ) : Decidable (zoneContains z x y) := by
  unfold zoneContains; infer_instance

/-- Force of one wind zone on the player (GameCanvas.tsx 514–543):
`zone.force * surfaceFactor * 0.15` is added to the velocity when the zone
contains the player, with surface factor 1.0 gliding and 0.3 diving. -/
def applyZoneForce (p : Player) (z : WindZone) : Player :=
  if zoneContains z p.x p.y then
    let surfaceFactor : ℚ := if p.isUmbrellaOpen then 1 else 3/10
    { p with vx := p.vx + z.vx * surfaceFactor * (15/100),
             vy := p.vy + z.vy * surfaceFactor * (15/100) }
  else p

/-- Wind-zone pass over the zone list, skipped entirely while a WIND_BREAKER
is active (GameCanvas.tsx 511–545). -/
def applyWindZones (p : Player) (zones : List WindZone) (hasWindBreaker : Bool) : Player :=
  if hasWindBreaker then p else zones.foldl applyZoneForce p

/-- Position integration: `player.x += player.vx; player.vy += currentGravity`
(GameCanvas.tsx 550–551).  The vertical position is not advanced by `vy`; the
world scrolls instead. -/
def integratePosition (p : Player) (currentGravity : ℚ) : Player :=
  { p with x := p.x + p.vx, vy := p.vy + currentGravity }

/-- Screen-bound clamping (GameCanvas.tsx 553–572): horizontal position is
clamped to `[50, width - 50]` zeroing `vx` on contact; vertical position is
clamped to `[100, height - 100]` zeroing the velocity in the clamped
direction. -/
def clampToScreen (p : Player) (width height : ℚ) : Player :=
  let p1 := if p.x < 50 then { p with x := 50, vx := 0 } else p
  let p2 := if p1.x > width - 50 then { p1 with x := width - 50, vx := 0 } else p1
  let p3 := if p2.y < 100 then { p2 with y := 100, vy := max p2.vy 0 } else p2
  if p3.y > height - 100 then { p3 with y := height - 100, vy := min p3.vy 0 } else p3

/-- Super-glide lift and terminal-velocity clamps (GameCanvas.tsx 574–584):
SUPER_GLIDE subtracts 0.4 from `vy`; descent is capped at twice the terminal
velocity, and at the terminal velocity when no gust is active; ascent is
capped at −8 unless SUPER_GLIDE is active. -/
def clampVelocity (p : Player) (currentTerminal : ℚ) (gustActive hasSuperGlide : Bool) : Player :=
  let p1 := if hasSuperGlide then { p with vy := p.vy - 4/10 } else p
  let p2 :=
    if p1.vy > currentTerminal * 2 then { p1 with vy := currentTerminal * 2 }
    else if p1.vy > currentTerminal ∧ gustActive = false then { p1 with vy := currentTerminal }
    else p1
  if p2.vy < -8 ∧ hasSuperGlide = false then { p2 with vy := -8 } else p2

/-- Player state just before the screen-bound clamping: horizontal movement,
gust, gravity and lift, wind zones, and position integration in source order
(GameCanvas.tsx 470–551). -/
def preClampPlayer (p : Player) (gust : WindGust) (zones : List WindZone)
    (hasWindBreaker : Bool) (gravityMultiplier : ℚ) : Player :=
  let p1 := horizontalStep p gust hasWindBreaker
  let pg := gravityAndLift p1 gravityMultiplier
  integratePosition (applyWindZones pg.1 zones hasWindBreaker) pg.2

/-- One full physics step of the tick (GameCanvas.tsx 470–584), the only part
of the update that writes the player position.  The umbrella flag never
changes inside the step, so the terminal velocity may be computed from the
incoming player. -/
def physicsStep (p : Player) (gust : WindGust) (zones : List WindZone)
    (hasWindBreaker hasSuperGlide : Bool) (gravityMultiplier width height : ℚ) : Player :=
  clampVelocity
    (clampToScreen (preClampPlayer p gust zones hasWindBreaker gravityMultiplier) width height)
    (currentTerminalOf p gravityMultiplier) gust.active hasSuperGlide

/-- Power-up kinds (src/types.ts, GameCanvas.tsx 943–956). -/
inductive PowerUpType
  | SLOW_MOTION
  | SHIELD
  | WIND_BREAKER
  | SUPER_GLIDE
deriving DecidableEq

/-- An entry of the active power-up list (GameCanvas.tsx 958–962). -/
structure ActivePowerUp where
  type : PowerUpType
  timeLeft : ℤ
  duration : ℤ
deriving DecidableEq

/-- Active power-up presence test, `activePowerUpsRef.current.some(p => p.type === t)`
(GameCanvas.tsx 327–329 and 853). -/
def hasActive (t : PowerUpType) (l : List ActivePowerUp) : Bool :=
  l.any fun a => a.type == t

/-- Per-tick active power-up timer update (GameCanvas.tsx 787–795): every
entry has `timeLeft` decremented and is spliced out when `timeLeft <= 0`.
There is no exemption for the SHIELD sentinel duration −1. -/
def tickActivePowerUps (l : List ActivePowerUp) : List ActivePowerUp :=
  (l.map fun a => { a with timeLeft := a.timeLeft - 1 }).filter fun a =>
    decide (0 < a.timeLeft)

/-- Removal of the first SHIELD entry:
`findIndex(p => p.type === 'SHIELD')` followed by `splice` (GameCanvas.tsx 857–860). -/
def removeFirstShield : List ActivePowerUp → List ActivePowerUp
  | [] => []
  | a :: rest => if a.type = .SHIELD then rest else a :: removeFirstShield rest

/-- Type-specific power-up durations (GameCanvas.tsx 942–956); SHIELD uses the
sentinel −1, commented in the source as lasting until hit. -/
def powerUpDuration : PowerUpType → ℤ
  | .SLOW_MOTION => 180
  | .SHIELD => -1
  | .WIND_BREAKER => 300
  | .SUPER_GLIDE => 300

/-- Power-up collection pushes a new active entry with the type-specific
duration (GameCanvas.tsx 958–962). -/
def collectPowerUp (t : PowerUpType) (l : List ActivePowerUp) : List ActivePowerUp :=
  l ++ [{ type := t, timeLeft := powerUpDuration t, duration := powerUpDuration t }]

/-- Challenge objective kinds (src/types.ts, src/services/challengeLevels.ts). -/
inductive ObjectiveType
  | SURVIVE_TIME
  | REACH_DEPTH
  | COLLECT_COINS
  | NO_DAMAGE
  | AVOID_OBSTACLES
deriving DecidableEq

/-- One challenge objective: target/current/completed triple.  Every target in
CHALLENGE_LEVELS is an integer literal, so targets are modelled by `ℤ`. -/
structure Objective where
  type : ObjectiveType
  target : ℤ
  current : ℤ
  completed : Bool
deriving DecidableEq

/-- Per-tick objective tracking (GameCanvas.tsx 620–643): completed objectives
are returned unchanged; SURVIVE_TIME sets `current = Math.floor(timeElapsed)`
and `completed = timeElapsed >= target`; REACH_DEPTH sets `current = depth`
and `completed = depth >= target`; the other three kinds are untouched here. -/
def trackObjective (timeElapsed : ℚ) (currentDepth : ℤ) (obj : Objective) : Objective :=
  if obj.completed then obj
  else
    match obj.type with
    | .SURVIVE_TIME =>
        { obj with current := ⌊timeElapsed⌋,
                   completed := decide ((obj.target : ℚ) ≤ timeElapsed) }
    | .REACH_DEPTH =>
        { obj with current := currentDepth,
                   completed := decide (obj.target ≤ currentDepth) }
    | _ => obj

/-- Coin-collection objective update (GameCanvas.tsx 1024–1030): an incomplete
COLLECT_COINS objective has `current` incremented and `completed = current >= target`. -/
def coinObjectiveUpdate (obj : Objective) : Objective :=
  if obj.type = .COLLECT_COINS ∧ obj.completed = false then
    { obj with current := obj.current + 1,
               completed := decide (obj.target ≤ obj.current + 1) }
  else obj

/-- Off-screen obstacle objective update (GameCanvas.tsx 822–828): an
incomplete AVOID_OBSTACLES objective has `current` incremented and
`completed = current >= target`. -/
def avoidObjectiveUpdate (obj : Objective) : Objective :=
  if obj.type = .AVOID_OBSTACLES ∧ obj.completed = false then
    { obj with current := obj.current + 1,
               completed := decide (obj.target ≤ obj.current + 1) }
  else obj

/-- Unshielded-collision objective update (GameCanvas.tsx 889–895): every
NO_DAMAGE objective is force-set to `current = 0`, `completed = false`. -/
def damageObjectiveUpdate (obj : Objective) : Objective :=
  if obj.type = .NO_DAMAGE then { obj with current := 0, completed := false }
  else obj

/-- Level-completion check: `updatedObjectives.every(obj => obj.completed)`
(GameCanvas.tsx 653). -/
def allObjectivesCompleted (objs : List Objective) : Bool :=
  objs.all fun o => o.completed

/-- One challenge-tracking pass of the tick (GameCanvas.tsx 615–661): map the
per-tick tracker over the objectives and test the every-completed condition
that triggers the level-complete game-over emission. -/
def challengeTick (timeElapsed : ℚ) (currentDepth : ℤ) (objs : List Objective) :
    List Objective × Bool :=
  let updated := objs.map (trackObjective timeElapsed currentDepth)
  (updated, allObjectivesCompleted updated)

/-- The four ways the source mutates a challenge objective list during a run. -/
inductive ChallengeEvent
  | tick (timeElapsed : ℚ) (currentDepth : ℤ)
  | coinCollected
  | obstacleAvoided
  | unshieldedHit

/-- Per-objective effect of one event, matching the function the source maps
over the objective list in each case
(GameCanvas.tsx 620–643, 1024–1030, 822–828, 889–895). -/
def eventObjectiveUpdate : ChallengeEvent → Objective → Objective
  | .tick t d => trackObjective t d
  | .coinCollected => coinObjectiveUpdate
  | .obstacleAvoided => avoidObjectiveUpdate
  | .unshieldedHit => damageObjectiveUpdate

/-- Apply one objective-mutating event, each a `map` in the source. -/
def applyChallengeEvent (e : ChallengeEvent) (objs : List Objective) : List Objective :=
  objs.map (eventObjectiveUpdate e)

/-- Run a sequence of objective-mutating events over an objective list. -/
def runChallengeEvents (events : List ChallengeEvent) (objs : List Objective) :
    List Objective :=
  events.foldl (fun o e => applyChallengeEvent e o) objs

/-- Obstacle kinds (src/types.ts). -/
inductive ObstacleType
  | BIRD
  | CLOUD
  | BUILDING
  | BALLOON
deriving DecidableEq

/-- Obstacle state as read by the scan loop. -/
structure Obstacle where
  x : ℚ
  y : ℚ
  width : ℚ
  height : ℚ
  speedX : ℚ
  type : ObstacleType
deriving DecidableEq

/-- Per-tick obstacle movement (GameCanvas.tsx 810–814):
`obs.y -= distanceTraveled * 1.5; obs.x += obs.speedX`, and a BIRD at a
horizontal screen edge reverses its `speedX`. -/
def moveObstacle (distanceTraveled width : ℚ) (o : Obstacle) : Obstacle :=
  let o1 := { o with y := o.y - distanceTraveled * (3/2), x := o.x + o.speedX }
  if o1.type = .BIRD ∧ (o1.x ≤ 0 ∨ o1.x + o1.width ≥ width) then
    { o1 with speedX := -o1.speedX }
  else o1

/-- Player hitbox used against obstacles and power-ups:
`{x: player.x - 10, y: player.y - 40, width: 20, height: 80}`
(GameCanvas.tsx 839–844). -/
def playerHitbox (p : Player) : Rect :=
  { x := p.x - 10, y := p.y - 40, width := 20, height := 80 }

/-- Terminal events handed to the game-over sink `onGameOver`
(GameCanvas.tsx 658 and 903). -/
inductive Emission
  | levelComplete (depth : ℤ)
  | hitObstacle (t : ObstacleType) (depth : ℤ)
deriving DecidableEq

/-- State threaded through the obstacle scan loop. -/
structure ScanState where
  objectives : List Objective
  activePowerUps : List ActivePowerUp
  kept : List Obstacle
  emissions : List Emission
deriving DecidableEq

/-- The obstacle scan loop (GameCanvas.tsx 807–907), processing obstacles in
the source iteration order (the source walks the array from the last index
down to 0).  Each obstacle is moved; an obstacle past `y < -500` is retired,
advancing AVOID_OBSTACLES objectives in challenge mode; a colliding obstacle
consumes the first SHIELD and disappears when one is held, and otherwise
force-fails NO_DAMAGE objectives, emits the fatal game-over and stops the
whole update immediately — the pending obstacles are returned untouched. -/
def scanObstacles (inChallenge : Bool) (p : Player) (distanceTraveled width : ℚ)
    (depth : ℤ) : List Obstacle → ScanState → ScanState
  | [], st => st
  | o :: rest, st =>
    let om := moveObstacle distanceTraveled width o
    if om.y < -500 then
      scanObstacles inChallenge p distanceTraveled width depth rest
        { st with objectives :=
            if inChallenge then st.objectives.map avoidObjectiveUpdate
            else st.objectives }
    else if rectsOverlapHit (playerHitbox p)
        { x := om.x, y := om.y, width := om.width, height := om.height } then
      if hasActive .SHIELD st.activePowerUps then
        scanObstacles inChallenge p distanceTraveled width depth rest
          { st with activePowerUps := removeFirstShield st.activePowerUps }
      else
        { st with
            objectives :=
              if inChallenge then st.objectives.map damageObjectiveUpdate
              else st.objectives,
            emissions := st.emissions ++ [Emission.hitObstacle om.type depth],
            kept := st.kept ++ om :: rest }
    else
      scanObstacles inChallenge p distanceTraveled width depth rest
        { st with kept := st.kept ++ [om] }

/-- Gameplay state threaded between ticks. -/
structure SimState where
  score : ℤ
  player : Player
  activePowerUps : List ActivePowerUp
  obstacles : List Obstacle
  objectives : List Objective
  inChallenge : Bool
deriving DecidableEq

/-- One update tick (GameCanvas.tsx 300–907) restricted to the claim-relevant
phases, in source order: difficulty and multipliers (303–348), physics
(470–584), score update (605–612), challenge objective tracking and the
level-complete emission — after which the source does NOT return (615–661),
active power-up timers (787–795), and the obstacle scan (807–907).  Returns
the next state and the list of game-over emissions of the tick. -/
def updateTick (mode : DifficultyMode) (storm : Bool) (timeElapsed : ℚ)
    (gust : WindGust) (zones : List WindZone) (width height : ℚ)
    (st : SimState) : SimState × List Emission :=
  let d := difficulty (st.score : ℚ)
  let hasSlowMotion := hasActive .SLOW_MOTION st.activePowerUps
  let hasWindBreaker := hasActive .WIND_BREAKER st.activePowerUps
  let hasSuperGlide := hasActive .SUPER_GLIDE st.activePowerUps
  let p := physicsStep st.player gust zones hasWindBreaker hasSuperGlide
             (gravityMultiplierOf d mode) width height
  let score2 := scoreAfterTick st.score p.vy mode storm hasSlowMotion
  let depth := ⌊(score2 : ℚ) / 10⌋
  let tracked :=
    if st.inChallenge then challengeTick timeElapsed depth st.objectives
    else (st.objectives, false)
  let chalEmissions : List Emission :=
    if tracked.2 then [Emission.levelComplete depth] else []
  let aps := tickActivePowerUps st.activePowerUps
  let sc := scanObstacles st.inChallenge p
              (p.vy * worldSpeedMultiplier d mode hasSlowMotion) width depth
              st.obstacles
              { objectives := tracked.1, activePowerUps := aps, kept := [],
                emissions := chalEmissions }
  ({ st with score := score2, player := p, activePowerUps := sc.activePowerUps,
             obstacles := sc.kept, objectives := sc.objectives }, sc.emissions)

/-- Test whether an emission is a fatal-collision game-over. -/
def Emission.isHit : Emission → Bool
  | .hitObstacle _ _ => true
  | .levelComplete _ => false

/-- Number of fatal-collision emissions in an emission list. -/
def hitCount (l : List Emission) : ℕ :=
  (l.filter Emission.isHit).length

/-- NO_DAMAGE objective of challenge level 2 (Night Glide), literally from
src/services/challengeLevels.ts 58–64: it starts with `target = 1`,
`current = 1`, `completed = false`. -/
def noDamageNightGlide : Objective :=
  { type := .NO_DAMAGE, target := 1, current := 1, completed := false }

/-- Objective list of challenge level 2 (Night Glide), literally from
src/services/challengeLevels.ts 38–65. -/
def nightGlideObjectives : List Objective :=
  [{ type := .SURVIVE_TIME, target := 90, current := 0, completed := false },
   { type := .REACH_DEPTH, target := 1000, current := 0, completed := false },
   noDamageNightGlide]

/-! ## Shared helper lemmas -/

lemma difficulty_nonneg (s : ℚ) : 0 ≤ difficulty s := by
  unfold difficulty
  exact le_min (div_nonneg (le_max_left 0 _) (by norm_num)) zero_le_one

lemma difficulty_le_one (s : ℚ) : difficulty s ≤ 1 :=
  min_le_right _ _

lemma modeMultiplier_pos (mode : DifficultyMode) : 0 < modeMultiplier mode := by
  cases mode <;> norm_num [modeMultiplier]

lemma worldSpeedMultiplier_nonneg (d : ℚ) (mode : DifficultyMode) (slowmo : Bool)
    (hd : 0 ≤ d) : 0 ≤ worldSpeedMultiplier d mode slowmo := by
  unfold worldSpeedMultiplier
  have hm := (modeMultiplier_pos mode).le
  have h1 : (0:ℚ) ≤ 1 + d * (2 - 1) * modeMultiplier mode := by nlinarith
  split_ifs <;> nlinarith

lemma scoreMultiplier_nonneg (d : ℚ) (storm : Bool) (hd : 0 ≤ d) :
    0 ≤ scoreMultiplier d storm := by
  unfold scoreMultiplier
  have h1 : (0:ℚ) ≤ 1 + d * (3/2) := by nlinarith
  split_ifs <;> nlinarith

/-! ## C7 — difficulty ramp and clamping -/

/-- C7: for every raw score `s` the difficulty computed at the start of a tick
equals the spec clamp `clamp((s − 200) / 5000, 0, 1)`, lies within `[0, 1]`,
is `0` for every `s ≤ 200`, and is exactly `1` for every `s ≥ 5200`. -/
theorem difficulty_matches_spec_clamp (s : ℚ) :
    difficulty s = specClampDifficulty s ∧
    0 ≤ difficulty s ∧ difficulty s ≤ 1 ∧
    (s ≤ 200 → difficulty s = 0) ∧
    (5200 ≤ s → difficulty s = 1) := by
  refine ⟨?_, difficulty_nonneg s, difficulty_le_one s, ?_, ?_⟩
  · unfold difficulty specClampDifficulty
    rcases le_total s 200 with h | h
    · have h1 : (s - 200) / 5000 ≤ 0 := by
        rw [div_nonpos_iff]
        right
        exact ⟨by linarith, by norm_num⟩
      rw [max_eq_left (by linarith), max_eq_right h1]
      norm_num
    · have h1 : (0:ℚ) ≤ (s - 200) / 5000 := by
        apply div_nonneg <;> linarith
      rw [max_eq_right (by linarith), max_eq_left h1]
  · intro h
    unfold difficulty
    rw [max_eq_left (by linarith)]
    norm_num
  · intro h
    unfold difficulty
    rw [max_eq_right (by linarith)]
    rw [min_eq_right]
    rw [le_div_iff₀ (by norm_num)]
    linarith

/-- C7 witness: difficulty is exactly 1 at raw score 5200 and 0 at raw
score 100. -/
theorem difficulty_matches_spec_clamp_witness :
    difficulty 5200 = 1 ∧ difficulty 100 = 0 :=
  ⟨(difficulty_matches_spec_clamp 5200).2.2.2.2 (by norm_num),
   (difficulty_matches_spec_clamp 100).2.2.2.1 (by norm_num)⟩

/-! ## C9 — collision test is strict AABB overlap -/

/-- C9: for rectangles of positive width and height, the source collision
test reports a hit exactly when the axis-aligned bounding boxes strictly
overlap (positive-area intersection); rectangles that merely touch at an
edge are not a hit, and a 1-unit overlap is a hit. -/
theorem collision_iff_strict_overlap (a b : Rect)
    (haw : 0 < a.width) (hah : 0 < a.height)
    (hbw : 0 < b.width) (hbh : 0 < b.height) :
    rectsOverlapHit a b = true ↔ specStrictOverlap a b := by
  unfold rectsOverlapHit specStrictOverlap
  simp only [Bool.and_eq_true, decide_eq_true_eq, max_lt_iff, lt_min_iff,
    gt_iff_lt, and_assoc]
  constructor
  · rintro ⟨h1, h2, h3, h4⟩
    refine ⟨?_, ?_, ?_, ?_, ?_, ?_, ?_, ?_⟩ <;> linarith
  · rintro ⟨h1, h2, h3, h4, h5, h6, h7, h8⟩
    refine ⟨?_, ?_, ?_, ?_⟩ <;> linarith

/-- C9 witness: a player-sized hitbox and an obstacle rectangle with a 1-unit
overlap in both axes are reported as a hit. -/
theorem collision_iff_strict_overlap_witness :
    rectsOverlapHit { x := 0, y := 0, width := 20, height := 80 }
      { x := 19, y := 79, width := 30, height := 30 } = true :=
  (collision_iff_strict_overlap
    { x := 0, y := 0, width := 20, height := 80 }
    { x := 19, y := 79, width := 30, height := 30 }
    (by norm_num) (by norm_num) (by norm_num) (by norm_num)).mpr
    (by constructor <;> norm_num [max_def, min_def])

/-! ## C2 — score monotonicity -/

/-- C2 counterexample: a tick with negative post-physics vertical velocity
strictly decreases the raw score.  At raw score 1000 in MEDIUM mode with no
storm and no SLOW_MOTION, a tick with `vy = -8` (the ascent cap reachable
under an updraft) lowers the score from 1000 to 988, refuting that the raw
score after every tick is greater than or equal to the raw score before. -/
theorem score_decreases_on_updraft_tick :
    scoreAfterTick 1000 (-8) .MEDIUM false false < 1000 := by
  norm_num [scoreAfterTick, difficulty, worldSpeedMultiplier, scoreMultiplier,
    modeMultiplier, min_def, max_def]

/-- C2 amended: the per-tick score delta is
`floor(vy * worldSpeedMultiplier * scoreMultiplier)`, so the raw score is
non-decreasing on every tick whose post-physics vertical velocity is
non-negative; ticks with negative vertical velocity can decrease it. -/
theorem score_nondecreasing_when_descending (score : ℤ) (vy : ℚ)
    (mode : DifficultyMode) (storm slowmo : Bool) (h : 0 ≤ vy) :
    score ≤ scoreAfterTick score vy mode storm slowmo := by
  unfold scoreAfterTick
  have hd := difficulty_nonneg (score : ℚ)
  have hw := worldSpeedMultiplier_nonneg (difficulty (score : ℚ)) mode slowmo hd
  have hs := scoreMultiplier_nonneg (difficulty (score : ℚ)) storm hd
  have hf : (0:ℤ) ≤ ⌊vy * worldSpeedMultiplier (difficulty (score : ℚ)) mode slowmo
      * scoreMultiplier (difficulty (score : ℚ)) storm⌋ :=
    Int.floor_nonneg.mpr (mul_nonneg (mul_nonneg h hw) hs)
  linarith

/-- C2 amended witness: at raw score 5 and `vy = 0` the score does not
decrease. -/
theorem score_nondecreasing_when_descending_witness :
    (5 : ℤ) ≤ scoreAfterTick 5 0 .MEDIUM false false :=
  score_nondecreasing_when_descending 5 0 .MEDIUM false false (by norm_num)

/-! ## C4 — objective transition rule -/

/-- C4 counterexample: the Night Glide NO_DAMAGE objective starts with
`current = 1 ≥ target = 1` and `completed = false`, and the per-tick tracker
leaves it entirely unchanged — it does not set `completed` to true even
though `current ≥ target`. -/
theorem noDamage_not_completed_at_target :
    trackObjective 0 0 noDamageNightGlide = noDamageNightGlide ∧
    noDamageNightGlide.target ≤ noDamageNightGlide.current ∧
    noDamageNightGlide.completed = false := by
  refine ⟨rfl, ?_, rfl⟩
  norm_num [noDamageNightGlide]

/-- C4 amended: SURVIVE_TIME and REACH_DEPTH objectives are set to completed
by the per-tick tracker exactly when the updated `current ≥ target`
(for integer targets); COLLECT_COINS and AVOID_OBSTACLES are completed by
their collection/avoidance handlers exactly when the incremented
`current ≥ target`; a completed objective is never reverted by the tracker or
those handlers; NO_DAMAGE is never set to completed — the tracker leaves it
unchanged, and an unshielded collision force-fails it to `completed = false`. -/
theorem objective_transition_rule (t : ℚ) (d : ℤ) (obj : Objective) :
    (obj.completed = false → obj.type = .SURVIVE_TIME ∨ obj.type = .REACH_DEPTH →
      ((trackObjective t d obj).completed = true ↔
        obj.target ≤ (trackObjective t d obj).current)) ∧
    (obj.completed = false →
      ((coinObjectiveUpdate obj).completed = true ↔
        obj.type = .COLLECT_COINS ∧ obj.target ≤ (coinObjectiveUpdate obj).current)) ∧
    (obj.completed = false →
      ((avoidObjectiveUpdate obj).completed = true ↔
        obj.type = .AVOID_OBSTACLES ∧ obj.target ≤ (avoidObjectiveUpdate obj).current)) ∧
    (obj.completed = true →
      trackObjective t d obj = obj ∧ coinObjectiveUpdate obj = obj ∧
        avoidObjectiveUpdate obj = obj) ∧
    (obj.type = .NO_DAMAGE →
      trackObjective t d obj = obj ∧ (damageObjectiveUpdate obj).completed = false) := by
  obtain ⟨ty, tg, cur, comp⟩ := obj
  cases comp <;> cases ty <;>
    simp [trackObjective, coinObjectiveUpdate, avoidObjectiveUpdate,
      damageObjectiveUpdate, Int.le_floor]

/-- C4 amended witness: a REACH_DEPTH objective with target 3 becomes
completed on a tick at depth 5. -/
theorem objective_transition_rule_witness :
    (trackObjective 0 5
      { type := .REACH_DEPTH, target := 3, current := 0, completed := false }).completed
      = true :=
  ((objective_transition_rule 0 5
      { type := .REACH_DEPTH, target := 3, current := 0, completed := false }).1
    rfl (Or.inr rfl)).mpr (by norm_num [trackObjective])

/-! ## C5 — empty objective list -/

/-- Challenge-mode simulation state with an empty objective list and a quiet
world, used to exercise the degenerate-configuration path. -/
def emptyObjectivesState : SimState :=
  { score := 0,
    player := { x := 400, y := 300, vx := 0, vy := -1/2, targetX := 400,
                isUmbrellaOpen := false },
    activePowerUps := [], obstacles := [], objectives := [], inChallenge := true }

/-- C5 counterexample: on a challenge tick whose progress holds an empty
objective list, the tracker DOES emit the level-complete game-over — the
`every` check is vacuously true — refuting that an empty objective list does
not auto-complete the level. -/
theorem empty_objectives_emits_level_complete :
    (updateTick .MEDIUM false 0 { active := false, vx := 0, vy := 0 } [] 800 600
      emptyObjectivesState).2 = [Emission.levelComplete 0] := by
  norm_num [updateTick, physicsStep, preClampPlayer, horizontalStep, clampLateral,
    gravityAndLift, currentTerminalOf, applyWindZones, integratePosition,
    clampToScreen, clampVelocity, scoreAfterTick, difficulty, worldSpeedMultiplier,
    scoreMultiplier, gravityMultiplierOf, modeMultiplier, hasActive,
    tickActivePowerUps, challengeTick, allObjectivesCompleted, scanObstacles,
    emptyObjectivesState, min_def, max_def]

/-- C5 amended: with zero objectives the every-objective-completed check is
vacuously true on every tracked tick, so the level-complete emission fires;
an empty objective list auto-completes the level. -/
theorem empty_objectives_vacuously_complete (t : ℚ) (d : ℤ) :
    (challengeTick t d []).2 = true := rfl

/-! ## C6 — NO_DAMAGE is never completed -/

lemma eventObjectiveUpdate_noDamage (e : ChallengeEvent) (o : Objective)
    (ht : o.type = .NO_DAMAGE) (hc : o.completed = false) :
    (eventObjectiveUpdate e o).type = .NO_DAMAGE ∧
    (eventObjectiveUpdate e o).completed = false := by
  obtain ⟨ty, tg, cur, comp⟩ := o
  cases ht
  cases hc
  cases e <;>
    simp [eventObjectiveUpdate, trackObjective, coinObjectiveUpdate,
      avoidObjectiveUpdate, damageObjectiveUpdate]

lemma runChallengeEvents_noDamage (events : List ChallengeEvent)
    (objs : List Objective)
    (h : ∃ o ∈ objs, o.type = .NO_DAMAGE ∧ o.completed = false) :
    ∃ o ∈ runChallengeEvents events objs,
      o.type = .NO_DAMAGE ∧ o.completed = false := by
  induction events generalizing objs with
  | nil => exact h
  | cons e es ih =>
    have hstep : runChallengeEvents (e :: es) objs =
        runChallengeEvents es (applyChallengeEvent e objs) := rfl
    rw [hstep]
    apply ih
    obtain ⟨o, hmem, ht, hc⟩ := h
    exact ⟨eventObjectiveUpdate e o, List.mem_map_of_mem _ hmem,
      eventObjectiveUpdate_noDamage e o ht hc⟩

/-- C6: in a challenge run whose objective list contains an incomplete
NO_DAMAGE objective, no sequence of objective-mutating events (per-tick
tracking, coin collection, obstacle avoidance, unshielded hits) ever sets
that objective to completed, so the every-objective-completed condition that
emits the level-complete event is false after any such sequence. -/
theorem noDamage_blocks_level_complete (events : List ChallengeEvent)
    (objs : List Objective)
    (h : ∃ o ∈ objs, o.type = .NO_DAMAGE ∧ o.completed = false) :
    (∃ o ∈ runChallengeEvents events objs,
      o.type = .NO_DAMAGE ∧ o.completed = false) ∧
    allObjectivesCompleted (runChallengeEvents events objs) = false := by
  have h2 := runChallengeEvents_noDamage events objs h
  refine ⟨h2, ?_⟩
  obtain ⟨o, hmem, _, hc⟩ := h2
  apply Bool.eq_false_iff.mpr
  intro hall
  rw [allObjectivesCompleted, List.all_eq_true] at hall
  have := hall o hmem
  rw [hc] at this
  exact Bool.false_ne_true this

/-- C6 witness: the Night Glide objective list keeps its NO_DAMAGE objective
incomplete, and the completion check stays false, across a sample event
sequence of ticks, a coin collection and an unshielded hit. -/
theorem noDamage_blocks_level_complete_witness :
    (∃ o ∈ runChallengeEvents
        [ChallengeEvent.tick 10 100, ChallengeEvent.coinCollected,
         ChallengeEvent.unshieldedHit, ChallengeEvent.tick 95 1200]
        nightGlideObjectives,
      o.type = .NO_DAMAGE ∧ o.completed = false) ∧
    allObjectivesCompleted (runChallengeEvents
        [ChallengeEvent.tick 10 100, ChallengeEvent.coinCollected,
         ChallengeEvent.unshieldedHit, ChallengeEvent.tick 95 1200]
        nightGlideObjectives) = false :=
  noDamage_blocks_level_complete _ nightGlideObjectives
    ⟨noDamageNightGlide, by simp [nightGlideObjectives], rfl, rfl⟩

/-! ## C1 — shield semantics -/

/-- Player whose post-physics state is at rest at (400, 300): the umbrella is
closed, the target equals the position, and the initial `vy = -1/2` cancels
the dive gravity `0.5`, so the tick's world displacement is zero. -/
def stillPlayer : Player :=
  { x := 400, y := 300, vx := 0, vy := -1/2, targetX := 400, isUmbrellaOpen := false }

/-- Inactive global gust. -/
def quietGust : WindGust := { active := false, vx := 0, vy := 0 }

/-- Stationary CLOUD obstacle overlapping the hitbox of `stillPlayer`. -/
def cloudInPath : Obstacle :=
  { x := 390, y := 300, width := 40, height := 40, speedX := 0, type := .CLOUD }

/-- State one tick after a SHIELD was collected: the active list still holds
the sentinel entry `{type: SHIELD, timeLeft: -1, duration: -1}` pushed by the
collection handler, and an obstacle overlaps the player. -/
def collectedShieldState : SimState :=
  { score := 0, player := stillPlayer,
    activePowerUps := [{ type := .SHIELD, timeLeft := -1, duration := -1 }],
    obstacles := [cloudInPath], objectives := [], inChallenge := false }

/-- C1: evaluation of the code at the failing input.  Collecting a SHIELD
pushes the sentinel entry with `timeLeft = -1`; on the very next tick the
active power-up timer update deletes that entry (the decrement makes it −2,
and every entry with `timeLeft <= 0` is spliced out, with no exemption for
the sentinel), so the obstacle collision of that tick finds no shield and
emits the fatal game-over — the run does not survive, even though the shield
was never consumed by absorbing a hit. -/
theorem shield_expires_before_collision :
    collectPowerUp .SHIELD [] =
      [{ type := .SHIELD, timeLeft := -1, duration := -1 }] ∧
    tickActivePowerUps [{ type := .SHIELD, timeLeft := -1, duration := -1 }] = [] ∧
    (updateTick .MEDIUM false 0 quietGust [] 800 600 collectedShieldState).2 =
      [Emission.hitObstacle .CLOUD 0] := by
  refine ⟨rfl, rfl, ?_⟩
  try simp +decide [updateTick, physicsStep, preClampPlayer, horizontalStep,
    clampLateral, gravityAndLift, currentTerminalOf, applyWindZones,
    integratePosition, clampToScreen, clampVelocity, scoreAfterTick, difficulty,
    worldSpeedMultiplier, scoreMultiplier, gravityMultiplierOf, modeMultiplier,
    hasActive, tickActivePowerUps, challengeTick, allObjectivesCompleted,
    scanObstacles, moveObstacle, rectsOverlapHit, playerHitbox,
    removeFirstShield, collectedShieldState, stillPlayer, quietGust,
    cloudInPath, min_def, max_def]
  try norm_num [updateTick, physicsStep, preClampPlayer, horizontalStep,
    clampLateral, gravityAndLift, currentTerminalOf, applyWindZones,
    integratePosition, clampToScreen, clampVelocity, scoreAfterTick, difficulty,
    worldSpeedMultiplier, scoreMultiplier, gravityMultiplierOf, modeMultiplier,
    hasActive, tickActivePowerUps, challengeTick, allObjectivesCompleted,
    scanObstacles, moveObstacle, rectsOverlapHit, playerHitbox,
    removeFirstShield, collectedShieldState, stillPlayer, quietGust,
    cloudInPath, min_def, max_def]
  try simp +decide [updateTick, physicsStep, preClampPlayer, horizontalStep,
    clampLateral, gravityAndLift, currentTerminalOf, applyWindZones,
    integratePosition, clampToScreen, clampVelocity, scoreAfterTick, difficulty,
    worldSpeedMultiplier, scoreMultiplier, gravityMultiplierOf, modeMultiplier,
    hasActive, tickActivePowerUps, challengeTick, allObjectivesCompleted,
    scanObstacles, moveObstacle, rectsOverlapHit, playerHitbox,
    removeFirstShield, collectedShieldState, stillPlayer, quietGust,
    cloudInPath, min_def, max_def]
  try norm_num [updateTick, physicsStep, preClampPlayer, horizontalStep,
    clampLateral, gravityAndLift, currentTerminalOf, applyWindZones,
    integratePosition, clampToScreen, clampVelocity, scoreAfterTick, difficulty,
    worldSpeedMultiplier, scoreMultiplier, gravityMultiplierOf, modeMultiplier,
    hasActive, tickActivePowerUps, challengeTick, allObjectivesCompleted,
    scanObstacles, moveObstacle, rectsOverlapHit, playerHitbox,
    removeFirstShield, collectedShieldState, stillPlayer, quietGust,
    cloudInPath, min_def, max_def]

/-! ## C3 — game-over emissions per tick -/

/-- Challenge state in which the single REACH_DEPTH objective is already met
(target 0) while an obstacle overlaps the player and no shield is held. -/
def doubleEmissionState : SimState :=
  { score := 0, player := stillPlayer, activePowerUps := [],
    obstacles := [cloudInPath],
    objectives := [{ type := .REACH_DEPTH, target := 0, current := 0,
                     completed := false }],
    inChallenge := true }

/-- C3 counterexample: a single update tick emits TWO game-over events — the
challenge level-complete emission is not followed by a return, the tick keeps
running, and the fatal obstacle collision of the same tick emits a second
game-over.  This refutes both at-most-one-game-over-per-tick and
at-most-one-per-run. -/
theorem two_game_overs_in_one_tick :
    (updateTick .MEDIUM false 0 quietGust [] 800 600 doubleEmissionState).2 =
      [Emission.levelComplete 0, Emission.hitObstacle .CLOUD 0] := by
  norm_num [updateTick, physicsStep, preClampPlayer, horizontalStep, clampLateral,
    gravityAndLift, currentTerminalOf, applyWindZones, integratePosition,
    clampToScreen, clampVelocity, scoreAfterTick, difficulty, worldSpeedMultiplier,
    scoreMultiplier, gravityMultiplierOf, modeMultiplier, hasActive,
    tickActivePowerUps, challengeTick, allObjectivesCompleted, trackObjective,
    scanObstacles, moveObstacle, rectsOverlapHit, playerHitbox,
    damageObjectiveUpdate, doubleEmissionState, stillPlayer, quietGust,
    cloudInPath, reduceCtorEq, min_def, max_def]

lemma scanObstacles_emission_bounds (inCh : Bool) (p : Player)
    (dt w : ℚ) (depth : ℤ) :
    ∀ (obs : List Obstacle) (st : ScanState),
      hitCount (scanObstacles inCh p dt w depth obs st).emissions ≤
        hitCount st.emissions + 1 ∧
      (scanObstacles inCh p dt w depth obs st).emissions.length ≤
        st.emissions.length + 1 := by
  intro obs
  induction obs with
  | nil =>
    intro st
    unfold scanObstacles
    exact ⟨Nat.le_succ _, Nat.le_succ _⟩
  | cons o rest ih =>
    intro st
    unfold scanObstacles
    dsimp only
    split_ifs
    all_goals try exact ih _
    all_goals constructor
    all_goals simp [hitCount, List.filter_append, Emission.isHit]

/-- C3 amended: the obstacle scan emits at most one fatal game-over per tick
and stops at the first fatal collision, but the challenge level-complete
emission does not return from the tick, so a single update tick can invoke
the game-over sink up to twice — at most one fatal-collision emission plus at
most one level-complete emission. -/
theorem at_most_two_emissions_per_tick (mode : DifficultyMode) (storm : Bool)
    (t : ℚ) (gust : WindGust) (zones : List WindZone) (w h : ℚ) (st : SimState) :
    hitCount (updateTick mode storm t gust zones w h st).2 ≤ 1 ∧
    (updateTick mode storm t gust zones w h st).2.length ≤ 2 := by
  unfold updateTick
  dsimp only
  constructor
  · refine le_trans (scanObstacles_emission_bounds _ _ _ _ _ st.obstacles _).1 ?_
    split_ifs <;> simp [hitCount, Emission.isHit]
  · refine le_trans (scanObstacles_emission_bounds _ _ _ _ _ st.obstacles _).2 ?_
    split_ifs <;> simp

/-! ## C8 — player position stays in the screen bands -/

lemma clampVelocity_position (p : Player) (ct : ℚ) (ga sg : Bool) :
    (clampVelocity p ct ga sg).x = p.x ∧ (clampVelocity p ct ga sg).y = p.y ∧
    (clampVelocity p ct ga sg).vx = p.vx := by
  unfold clampVelocity
  dsimp only
  split_ifs <;> exact ⟨rfl, rfl, rfl⟩

lemma clampToScreen_bounds (p : Player) (w h : ℚ) (hw : 100 ≤ w) (hh : 200 ≤ h) :
    50 ≤ (clampToScreen p w h).x ∧ (clampToScreen p w h).x ≤ w - 50 ∧
    100 ≤ (clampToScreen p w h).y ∧ (clampToScreen p w h).y ≤ h - 100 ∧
    (p.x < 50 → (clampToScreen p w h).vx = 0) ∧
    (w - 50 < p.x → (clampToScreen p w h).vx = 0) := by
  unfold clampToScreen
  dsimp only
  split_ifs <;>
    refine ⟨?_, ?_, ?_, ?_, fun hx => ?_, fun hx => ?_⟩ <;>
    first | rfl | linarith | (dsimp only; linarith)

/-- C8: after the physics step of every update tick — the only part of the
tick that writes the player position — the horizontal position lies within
`[50, width − 50]` and the vertical position within `[100, height − 100]`
(for a viewport at least 100 wide and 200 tall), and `vx` is zeroed when the
pre-clamp position was in contact with either horizontal bound; the final
velocity clamps that follow the screen clamp do not move the position. -/
theorem player_position_bounded (p : Player) (gust : WindGust)
    (zones : List WindZone) (wb sg : Bool) (gm w h : ℚ)
    (hw : 100 ≤ w) (hh : 200 ≤ h) :
    50 ≤ (physicsStep p gust zones wb sg gm w h).x ∧
    (physicsStep p gust zones wb sg gm w h).x ≤ w - 50 ∧
    100 ≤ (physicsStep p gust zones wb sg gm w h).y ∧
    (physicsStep p gust zones wb sg gm w h).y ≤ h - 100 ∧
    ((preClampPlayer p gust zones wb gm).x < 50 →
      (physicsStep p gust zones wb sg gm w h).vx = 0) ∧
    (w - 50 < (preClampPlayer p gust zones wb gm).x →
      (physicsStep p gust zones wb sg gm w h).vx = 0) := by
  have hc := clampVelocity_position
    (clampToScreen (preClampPlayer p gust zones wb gm) w h)
    (currentTerminalOf p gm) gust.active sg
  have hb := clampToScreen_bounds (preClampPlayer p gust zones wb gm) w h hw hh
  unfold physicsStep
  rw [hc.1, hc.2.1, hc.2.2]
  exact hb

/-- C8 witness: the bounds hold for a concrete player in an 800×600 viewport. -/
theorem player_position_bounded_witness :
    50 ≤ (physicsStep stillPlayer quietGust [] false false 1 800 600).x ∧
    (physicsStep stillPlayer quietGust [] false false 1 800 600).x ≤ 800 - 50 ∧
    100 ≤ (physicsStep stillPlayer quietGust [] false false 1 800 600).y ∧
    (physicsStep stillPlayer quietGust [] false false 1 800 600).y ≤ 600 - 100 ∧
    ((preClampPlayer stillPlayer quietGust [] false 1).x < 50 →
      (physicsStep stillPlayer quietGust [] false false 1 800 600).vx = 0) ∧
    (800 - 50 < (preClampPlayer stillPlayer quietGust [] false 1).x →
      (physicsStep stillPlayer quietGust [] false false 1 800 600).vx = 0) :=
  player_position_bounded stillPlayer quietGust [] false false 1 800 600
    (by norm_num) (by norm_num)

/-! ## C10 — WIND_BREAKER nullifies gust and wind-zone forces -/

/-- C10: when the active power-up list makes `hasWindBreaker` true, the
physics step is identical to the physics step with both gust force
components zeroed and no wind zones at all (gust activity is kept, since it
also gates the overspeed allowance of the terminal-velocity clamp): the net
additional velocity contribution of the gust force path and of every wind
zone is zero. -/
theorem windBreaker_nullifies_wind (aps : List ActivePowerUp) (p : Player)
    (gust : WindGust) (zones : List WindZone) (sg : Bool) (gm w h : ℚ)
    (hwb : hasActive .WIND_BREAKER aps = true) :
    physicsStep p gust zones (hasActive .WIND_BREAKER aps) sg gm w h =
      physicsStep p { active := gust.active, vx := 0, vy := 0 } [] true sg gm w h := by
  rw [hwb]
  unfold physicsStep preClampPlayer horizontalStep applyWindZones
  simp

/-- C10 witness: with a WIND_BREAKER entry active, a strong gust and an
enclosing wind zone contribute nothing to the player velocity. -/
theorem windBreaker_nullifies_wind_witness :
    physicsStep stillPlayer { active := true, vx := 7, vy := -2 }
      [{ x := 0, y := 0, width := 1000, height := 1000, vx := 5, vy := 5 }]
      (hasActive .WIND_BREAKER
        [{ type := .WIND_BREAKER, timeLeft := 300, duration := 300 }])
      false 1 800 600 =
    physicsStep stillPlayer { active := true, vx := 0, vy := 0 } [] true false
      1 800 600 :=
  windBreaker_nullifies_wind
    [{ type := .WIND_BREAKER, timeLeft := 300, duration := 300 }]
    stillPlayer { active := true, vx := 7, vy := -2 }
    [{ x := 0, y := 0, width := 1000, height := 1000, vx := 5, vy := 5 }]
    false 1 800 600 rfl

end StickmanGlide
